import Mathlib

/-!
Verification of the Astra_KI request-lifecycle layer.

Shallow embedding of the code in:
- `src/modules/ollama_client.py` (OllamaClient: `_get_timeout`, `chat_stream`)
- `src/modules/ui/workers.py` (LLMStreamWorker)
- `src/modules/database.py` (Database: chat CRUD, write queue, writer loop, close)
- `src/modules/ui/main_window.py` (AstraMainWindow: request coordinator)

Machine integers do not occur on the verified paths; timestamps are modelled
as abstract `Nat` ticks. Fallible Python calls are modelled with `Option` /
explicit outcome records; exceptions that the source catches are modelled by
the value the handler produces.
-/

namespace Astra

/-! ## Section 1: Timeout configuration (`src/config.py` lines 32-45,
identical in `src/config/__init__.py` lines 34-47) and
`OllamaClient._get_timeout` (`src/modules/ollama_client.py` lines 24-29).

Python dicts preserve insertion order, so the dict is embedded as an ordered
association list.  `model_key in model` is Python substring containment,
embedded as `containsSub` on character lists. -/

def OLLAMA_TIMEOUTS : List (String × Nat) :=
  [("qwen2.5:7b", 90),
   ("qwen2.5:14b", 120),
   ("qwen2.5:32b", 180),
   ("llama2:7b", 90),
   ("llama2:13b", 120),
   ("mistral:7b", 90),
   ("llama3.2", 90),
   ("neural-chat:7b", 90),
   ("phi:7b", 60),
   ("default", 120)]

def OLLAMA_RETRY_ATTEMPTS : Nat := 3

/-- Character-list version of Python `s.startswith(sub)`. -/
def startsWithChars : List Char → List Char → Bool
  | [], _ => true
  | _ :: _, [] => false
  | a :: as, b :: bs => a == b && startsWithChars as bs

/-- Character-list version of Python substring containment (`sub in s`). -/
def containsSub (sub s : List Char) : Bool :=
  match s with
  | [] => startsWithChars sub []
  | _ :: rest => startsWithChars sub s || containsSub sub rest

/-- `OllamaClient._get_timeout` (ollama_client.py lines 24-29): first table
entry whose key is not `"default"` and occurs as a substring of the model
identity wins; otherwise fall back to the `"default"` entry.  `none` models
the `KeyError` Python would raise if no `"default"` entry existed. -/
def _get_timeout (model : String) : Option Nat :=
  match OLLAMA_TIMEOUTS.find?
      (fun kv => kv.1 != "default" && containsSub kv.1.toList model.toList) with
  | some kv => some kv.2
  | none => (OLLAMA_TIMEOUTS.find? (fun kv => kv.1 == "default")).map Prod.snd

/-! ## Section 2: `OllamaClient.chat_stream` (ollama_client.py lines 50-122)
and `LLMStreamWorker.run` (workers.py lines 50-60).

The network is modelled as a schedule: one `AttemptOutcome` per request
attempt.  A raw line of the chunked response is empty (skipped by
`if line:`), malformed JSON (the `json.JSONDecodeError` branch `continue`s),
or a parsed chunk whose extracted text is yielded only when non-empty
(`if text:`).  `chat_stream` has NO cancellation parameter in the source —
its signature is `(self, model, messages, temperature, callback)` — so the
embedding takes none either.  The source contains no `finally` block,
no `with` statement and no `response.close()` call, so no exit path of the
embedding sets `released`. -/

inductive RawLine
  | empty
  | malformed
  | chunk (text : String)
deriving DecidableEq

/-- Texts yielded while iterating one response body
(ollama_client.py lines 89-100). -/
def extractTexts : List RawLine → List String
  | [] => []
  | RawLine.empty :: rest => extractTexts rest
  | RawLine.malformed :: rest => extractTexts rest
  | RawLine.chunk t :: rest =>
      if t = "" then extractTexts rest else t :: extractTexts rest

/-- Outcome of one request attempt.  `timeoutAfter lines` is a
`requests.Timeout` raised after the listed lines were streamed (connect-phase
timeout has `lines = []`); `exnAfter` is any other exception. -/
inductive AttemptOutcome
  | ok (lines : List RawLine)
  | httpError (code : Nat)
  | timeoutAfter (lines : List RawLine)
  | exnAfter (lines : List RawLine) (msg : String)
deriving DecidableEq

/-- Observable result of a `chat_stream` call: the chunks the generator
yielded, and whether the response object was ever explicitly released. -/
structure StreamExec where
  yielded : List String
  released : Bool
deriving DecidableEq

/-- The attempt loop of `chat_stream` (ollama_client.py lines 68-122),
starting at attempt number `attempt`.  On HTTP 200 every extracted text is
yielded and the generator returns.  A non-200 status retries while
`attempt < max_retries` and otherwise falls out of the `for` loop yielding
nothing more.  A `requests.Timeout` retries while `attempt < max_retries`
and on the final attempt yields the literal `"⏱️ Stream Timeout"`.  Any
other exception yields `"❌ Fehler: " ++ msg` and returns.  No branch
releases the response. -/
def chatStreamGo : Nat → List AttemptOutcome → StreamExec
  | _, [] => ⟨[], false⟩
  | _, AttemptOutcome.ok lines :: _ => ⟨extractTexts lines, false⟩
  | attempt, AttemptOutcome.httpError _ :: rest =>
      if attempt < OLLAMA_RETRY_ATTEMPTS then chatStreamGo (attempt + 1) rest
      else ⟨[], false⟩
  | attempt, AttemptOutcome.timeoutAfter lines :: rest =>
      if attempt < OLLAMA_RETRY_ATTEMPTS then
        let r := chatStreamGo (attempt + 1) rest
        ⟨extractTexts lines ++ r.yielded, r.released⟩
      else ⟨extractTexts lines ++ ["⏱️ Stream Timeout"], false⟩
  | _, AttemptOutcome.exnAfter lines msg :: _ =>
      ⟨extractTexts lines ++ ["❌ Fehler: " ++ msg], false⟩

/-- `chat_stream` runs the attempt loop from attempt 1. -/
def chat_stream (schedule : List AttemptOutcome) : StreamExec :=
  chatStreamGo 1 schedule

/-- Chunk-consumption loop of `LLMStreamWorker.run` (workers.py lines 53-58):
`for chunk in stream: if chunk: full_response += chunk; emit chunk`.
Returns the emitted chunk events and the final accumulator. -/
def workerFold : List String → String → List String × String
  | [], acc => ([], acc)
  | c :: rest, acc =>
      if c = "" then workerFold rest acc
      else
        let r := workerFold rest (acc ++ c)
        (c :: r.1, r.2)

/-- Signals emitted by one `LLMStreamWorker.run` execution. -/
structure WorkerRun where
  chunkEvents : List String
  finishedText : String
deriving DecidableEq

/-- `LLMStreamWorker.run` (workers.py lines 50-58): consume the generator,
accumulate `full_response`, then `finished.emit(full_response)`. -/
def LLMStreamWorker_run (schedule : List AttemptOutcome) : WorkerRun :=
  let r := workerFold (chat_stream schedule).yielded ""
  ⟨r.1, r.2⟩

/-! ## Section 3: `Database` chat persistence (`src/modules/database.py`).

The SQLite tables `chats` and `messages` are embedded as row lists with
AUTOINCREMENT counters (SQLite row ids start at 1, so the initial state has
`nextChatId = 1` and `nextMsgId = 1`).  The UNIQUE constraint on
`chats.name` makes an INSERT fail (`sqlite3.IntegrityError`) exactly when a
row with the name exists.  A transient `sqlite3.OperationalError`
("database is locked") is injected through explicit `busy` flags, since it
depends on outside contention.  Python truthiness of a chat id
(`if not chat_id`) is `pyTruthy`.  Timestamps are abstract `Nat` ticks
standing for `datetime.now().isoformat()`. -/

structure ChatRow where
  id : Nat
  name : String
  created_at : Nat
  updated_at : Nat
deriving DecidableEq

structure MessageRow where
  id : Nat
  chat_id : Nat
  role : String
  content : String
  timestamp : Nat
deriving DecidableEq

structure DBState where
  chats : List ChatRow
  messages : List MessageRow
  nextChatId : Nat
  nextMsgId : Nat
deriving DecidableEq

def DBState.empty : DBState := ⟨[], [], 1, 1⟩

/-- Python truthiness of an optional integer id (`if chat_id:`). -/
def pyTruthy : Option Nat → Bool
  | none => false
  | some i => i != 0

/-- `INSERT INTO chats (name, created_at, updated_at) VALUES (?, ?, ?)`:
fails (`none`, the `sqlite3.IntegrityError` case) iff the UNIQUE name
constraint is violated, otherwise appends the row and returns
`cursor.lastrowid`. -/
def chatInsert (db : DBState) (name : String) (now : Nat) :
    Option (DBState × Nat) :=
  if db.chats.any (fun c => c.name == name) then none
  else
    some ({ db with
              chats := db.chats ++ [⟨db.nextChatId, name, now, now⟩],
              nextChatId := db.nextChatId + 1 },
          db.nextChatId)

/-- `Database.create_chat` (database.py lines 140-156): the public method.
On `sqlite3.IntegrityError` (duplicate name) AND on
`sqlite3.OperationalError` (`busy = true`) it returns `None`. -/
def create_chat (db : DBState) (name : String) (now : Nat) (busy : Bool) :
    DBState × Option Nat :=
  if busy then (db, none)
  else
    match chatInsert db name now with
    | some (db2, i) => (db2, some i)
    | none => (db, none)

/-- `Database.get_chat_id` / `Database._get_chat_id_unlocked`
(database.py lines 158-168 and 284-290):
`SELECT id FROM chats WHERE name = ?`. -/
def get_chat_id (db : DBState) (name : String) : Option Nat :=
  (db.chats.find? (fun c => c.name == name)).map (fun c => c.id)

/-- `Database._create_chat_unlocked` (database.py lines 292-308): like
`create_chat` but on `sqlite3.IntegrityError` it falls back to
`_get_chat_id_unlocked` and returns the existing row's id; any other
exception (`busy = true`) yields `None`. -/
def _create_chat_unlocked (db : DBState) (name : String) (now : Nat)
    (busy : Bool) : DBState × Option Nat :=
  if busy then (db, none)
  else
    match chatInsert db name now with
    | some (db2, i) => (db2, some i)
    | none => (db, get_chat_id db name)

structure WriteJob where
  chat_name : String
  role : String
  content : String
deriving DecidableEq

/-- Observable outcome of `Database.save_message`: updated store, jobs
enqueued on the write queue, returned boolean, the `time.sleep` delays
performed (in milliseconds), and the number of error-log lines written. -/
structure SaveMessageOutcome where
  db : DBState
  enqueued : List WriteJob
  returned : Bool
  sleepsMs : List Nat
  loggedErrors : Nat
deriving DecidableEq

/-- `Database.save_message` (database.py lines 232-252): resolve the chat id
(`get_chat_id`, else `create_chat`); if still falsy, `time.sleep(0.1)` once
and re-read the id; if an id was obtained, enqueue the job and return
`True`, else log the error and return `False` (the write is dropped). -/
def save_message (db : DBState) (name role content : String) (now : Nat)
    (createBusy : Bool) : SaveMessageOutcome :=
  let cid0 := get_chat_id db name
  if pyTruthy cid0 then ⟨db, [⟨name, role, content⟩], true, [], 0⟩
  else
    let p := create_chat db name now createBusy
    if pyTruthy p.2 then ⟨p.1, [⟨name, role, content⟩], true, [], 0⟩
    else
      let cid2 := get_chat_id p.1 name
      if pyTruthy cid2 then ⟨p.1, [⟨name, role, content⟩], true, [100], 0⟩
      else ⟨p.1, [], false, [100], 1⟩

/-- The message INSERT plus the `updated_at` refresh of
`_write_message_sync`'s happy path (database.py lines 267-278). -/
def msgInsert (db : DBState) (cid : Nat) (role content : String)
    (now : Nat) : DBState :=
  { db with
      messages := db.messages ++ [⟨db.nextMsgId, cid, role, content, now⟩],
      nextMsgId := db.nextMsgId + 1,
      chats := db.chats.map
        (fun c => if c.id == cid then { c with updated_at := now } else c) }

/-- Observable outcome of `Database._write_message_sync`: updated store,
returned boolean, how many times the message-row INSERT was attempted, the
sleeps performed, and the number of error-log lines. -/
structure WriteSyncOutcome where
  db : DBState
  returned : Bool
  insertAttempts : Nat
  sleepsMs : List Nat
  logged : Nat
deriving DecidableEq

/-- `Database._write_message_sync` (database.py lines 254-282): resolve the
chat id (read, else `_create_chat_unlocked`); a falsy id is logged and
returns `False`.  Otherwise INSERT the message row and refresh
`updated_at`.  The whole body sits in a single `try`: an
`sqlite3.OperationalError` during the INSERT (`insertBusy = true`) is
caught by `except Exception`, logged, and `False` is returned — there is no
retry loop and no delay anywhere in this method. -/
def _write_message_sync (db : DBState) (name role content : String)
    (now : Nat) (createBusy insertBusy : Bool) : WriteSyncOutcome :=
  let cid0 := get_chat_id db name
  let p := if pyTruthy cid0 then (db, cid0)
           else _create_chat_unlocked db name now createBusy
  if pyTruthy p.2 then
    match p.2 with
    | some cid =>
        if insertBusy then ⟨p.1, false, 1, [], 1⟩
        else ⟨msgInsert p.1 cid role content now, true, 1, [], 0⟩
    | none => ⟨p.1, false, 0, [], 1⟩
  else ⟨p.1, false, 0, [], 1⟩

/-- `Database._writer_loop` (database.py lines 310-333), processing the
queue contents sequentially in FIFO order: a `None` sentinel breaks the
loop; a real job is applied via `_write_message_sync` (fault-free run).
Returns the final store and the jobs processed, in processing order. -/
def _writer_loop (db : DBState) (queue : List (Option WriteJob))
    (now : Nat) : DBState × List WriteJob :=
  match queue with
  | [] => (db, [])
  | none :: _ => (db, [])
  | some j :: rest =>
      let o := _write_message_sync db j.chat_name j.role j.content now
        false false
      let r := _writer_loop o.db rest now
      (r.1, j :: r.2)

/-- `Database.close` (database.py lines 335-357), first call, drain
portion: the sentinel is put AFTER the already-enqueued jobs
(`self._write_queue.put(None)`), and `self._write_queue.join()` blocks —
with no timeout — until the worker has processed everything up to and
including the sentinel.  The store/applied-jobs pair at the moment `join`
returns is therefore the writer loop run on `jobs ++ [sentinel]`. -/
def close_drain (db : DBState) (jobs : List WriteJob) (now : Nat) :
    DBState × List WriteJob :=
  _writer_loop db (jobs.map some ++ [none]) now

/-! ## Section 4: queue bookkeeping of `close` called twice.

`queue.Queue` counts unfinished tasks: `put` increments the count,
`task_done` decrements it, and `join()` returns only once the count is 0.
`_writer_loop` calls `task_done` for every item it pops, and exits (the
thread dies) after popping the `None` sentinel.  The state below tracks
exactly these observables. -/

structure SerializerState where
  queue : List (Option WriteJob)
  unfinished : Nat
  workerAlive : Bool
  stopSet : Bool
  connOpen : Bool
deriving DecidableEq

/-- One iteration of `_writer_loop` (database.py lines 312-333) as seen by
the queue bookkeeping: on an empty queue the worker exits only if the stop
event is set (lines 314-318); popping the sentinel calls `task_done` and
breaks (lines 320-322); popping a real job applies it and calls
`task_done` (lines 324-333).  A dead worker does nothing. -/
def workerStep (s : SerializerState) : SerializerState :=
  if s.workerAlive then
    match s.queue with
    | [] => if s.stopSet then { s with workerAlive := false } else s
    | none :: rest =>
        { s with queue := rest, unfinished := s.unfinished - 1,
                 workerAlive := false }
    | some _ :: rest =>
        { s with queue := rest, unfinished := s.unfinished - 1 }
  else s

def workerSteps (s : SerializerState) : Nat → SerializerState
  | 0 => s
  | n + 1 => workerSteps (workerStep s) n

/-- Step 1 of `Database.close` (database.py line 339):
`self._write_queue.put(None)` — appends the sentinel and increments the
unfinished-task count. -/
def putSentinel (s : SerializerState) : SerializerState :=
  { s with queue := s.queue ++ [none], unfinished := s.unfinished + 1 }

/-- The serializer state of a freshly constructed `Database` whose queue
has been fully worked off: worker thread alive, queue empty, no unfinished
tasks, connection open. -/
def initialSerializer : SerializerState := ⟨[], 0, true, false, true⟩

/-- The serializer state right after the FIRST `close()` completed
(database.py lines 335-357): the worker consumed the sentinel and exited,
`join()` returned, the stop event was set and the connection closed. -/
def afterFirstClose : SerializerState :=
  { workerSteps (putSentinel initialSerializer) 1 with
      stopSet := true, connOpen := false }

/-! ## Section 5: the request coordinator
(`AstraMainWindow`, `src/modules/ui/main_window.py`).

The UI event loop processes queued events one at a time on the UI thread;
each handler below is one slot, embedded as a state transformer.  A chunk
signal is modelled as carrying the generation id of the worker that EMITTED
it (`srcGen`); the source handler has no access to that value — it reads
`self.llm_worker._gen_id`, the attribute of the CURRENTLY STORED worker —
which is the point settled by claim C1.

`LLMStreamWorker` (workers.py lines 35-60) defines NO `cancel` method, so
every `self.llm_worker.cancel()` call in main_window.py raises
`AttributeError`.  Inside `_start_llm_request` that exception is caught by
the surrounding `try` (line 753) and routed to `on_response_error`; in
`_stop_generation` (line 764) and `select_chat` (line 484) it is uncaught
and escapes the slot, so the rest of the handler does not run — modelled by
the `crashed` flag with the state otherwise unchanged.

The memory collaborator `remove_tags_from_response` is outside this layer's
scope and is passed in as the function parameter `rt`.  The `saved` list
records the assistant-message `db.save_message` calls as
(chat, content) pairs. -/

structure CoordState where
  /-- `self._generation_id` -/
  generationId : Nat
  /-- `self.current_chat` -/
  currentChat : String
  /-- `self._response_target_chat` -/
  responseTarget : String
  /-- `self._current_response` -/
  currentResponse : String
  /-- `self.llm_worker._gen_id` of the stored worker (`none` = no worker) -/
  workerGen : Option Nat
  /-- `self.llm_worker.isRunning()` at the time the next slot runs -/
  workerRunning : Bool
  /-- `self.is_waiting_for_response` -/
  waiting : Bool
  /-- assistant messages persisted via `db.save_message(chat, "assistant", content)` -/
  saved : List (String × String)
  /-- an uncaught `AttributeError` escaped a slot -/
  crashed : Bool
deriving DecidableEq

/-- Coordinator state at window construction: no generation yet, no worker,
chat `chat0` selected. -/
def CoordState.initial (chat0 : String) : CoordState :=
  ⟨0, chat0, chat0, "", none, false, false, [], false⟩

/-- `AstraMainWindow._start_llm_request` (main_window.py lines 671-755).
If the stored worker is still running, `self.llm_worker.cancel()` (line
677) raises `AttributeError`, the outer `try` catches it (line 753) and
calls `on_response_error`, which resets `is_waiting_for_response`; no new
worker is created.  Otherwise (lines 689-751): set the waiting flag, reset
the response buffer, mint the next generation id, freeze the response
target as the currently active chat, and start a new worker stamped with
the new generation id. -/
def _start_llm_request (st : CoordState) : CoordState :=
  if st.workerGen.isSome && st.workerRunning then
    { st with waiting := false }
  else
    { st with
        waiting := true,
        currentResponse := "",
        generationId := st.generationId + 1,
        responseTarget := st.currentChat,
        workerGen := some (st.generationId + 1),
        workerRunning := true }

/-- `AstraMainWindow.on_chunk_received` (main_window.py lines 796-822).
The staleness check (lines 800-803) reads `self.llm_worker._gen_id` — the
attribute of the worker currently stored on the window — and drops the
chunk when that differs from `self._generation_id`; otherwise the chunk is
appended to `self._current_response`.  The id of the worker that emitted
the signal (`srcGen`) is never consulted; the parameter is kept in the
embedding to express which generation a chunk belongs to.  When no worker
is stored (`self.llm_worker` is `None`) the check is skipped and the chunk
is appended. -/
def on_chunk_received (st : CoordState) (srcGen : Nat) (chunk : String) :
    CoordState :=
  let _ := srcGen
  match st.workerGen with
  | some g =>
      if g != st.generationId then st
      else { st with currentResponse := st.currentResponse ++ chunk }
  | none => { st with currentResponse := st.currentResponse ++ chunk }

/-- The worker thread's `run` method returned, so `isRunning()` is `false`
from now on.  (Signals it emitted earlier may still be queued and are
delivered as later events.) -/
def workerThreadEnded (st : CoordState) : CoordState :=
  { st with workerRunning := false }

/-- `AstraMainWindow.on_response_received` (main_window.py lines 842-896),
restricted to this layer's observables: clear the waiting flag and persist
`remove_tags_from_response(self._current_response)` to the FROZEN response
target `self._response_target_chat` (lines 856-880) — explicitly not to
`self.current_chat`.  The save thread is started at line 880, BEFORE line
884 constructs `RichFormatterWorker(..., text_size=...)` and hits the
`TypeError` (workers.py line 131 has no such parameter); that exception is
caught by the handler's own `try` (line 893) and routed to
`on_response_error`, so the save still happens and the slot survives. -/
def on_response_received (rt : String → String) (st : CoordState) :
    CoordState :=
  { st with
      waiting := false,
      saved := st.saved ++ [(st.responseTarget, rt st.currentResponse)] }

/-- `AstraMainWindow._stop_generation` (main_window.py lines 757-794).
With a stored worker still running, `self.llm_worker.cancel()` (line 764,
no surrounding `try`) raises `AttributeError` which escapes the slot before
any flag is updated.  Otherwise lines 767-770 clear the waiting flag, and
then: with a NON-EMPTY response buffer, line 776 constructs
`RichFormatterWorker(partial, source="llm", text_size=...)` — but
`RichFormatterWorker.__init__` (workers.py line 131) has no `text_size`
parameter, so a `TypeError` is raised, uncaught in this slot, BEFORE the
partial save at line 786: the `"[abgebrochen]"` save never executes and the
handler dies.  With an empty buffer the else branch (lines 788-792) only
touches the display and the slot completes.  The `rt` parameter is the
memory collaborator that line 785 would apply; that line is unreachable. -/
def _stop_generation (rt : String → String) (st : CoordState) : CoordState :=
  let _ := rt
  if st.workerGen.isSome && st.workerRunning then
    { st with crashed := true }
  else
    if st.currentResponse != "" then
      { st with waiting := false, crashed := true }
    else
      { st with waiting := false }

/-- `AstraMainWindow.select_chat` (main_window.py lines 478-525).  When a
turn is in flight and a different chat is chosen (line 481): with the
stored worker still running, `self.llm_worker.cancel()` (line 484, no
surrounding `try`) raises `AttributeError` and the slot aborts before
`self.current_chat` is reassigned — the switch does not happen.  With the
worker no longer running, any accumulated partial text is persisted to the
OLD turn's frozen response target with the aborted marker and the buffer is
cleared (lines 493-498); then the active chat is reassigned (line 500) and
the waiting flag cleared (line 525).  (The search worker is assumed not to
be running; its `cancel()` would raise the same `AttributeError`.) -/
def select_chat (rt : String → String) (st : CoordState)
    (chatName : String) : CoordState :=
  if st.waiting && chatName != st.currentChat then
    if st.workerGen.isSome && st.workerRunning then
      { st with crashed := true }
    else
      let st1 := { st with waiting := false }
      let st2 :=
        if st.currentResponse != "" then
          { st1 with
              saved := st1.saved ++
                [(st.responseTarget,
                  rt st.currentResponse ++ " [abgebrochen]")],
              currentResponse := "" }
        else st1
      { st2 with currentChat := chatName, waiting := false }
  else
    { st with currentChat := chatName, waiting := false }

/-- `AstraMainWindow.send_message` (main_window.py lines 527-612), no-search
path with a non-empty typed message (an empty input returns at line 534
before anything happens), restricted to this layer's observables: while a
response is pending the send button acts as STOP (lines 548-550);
otherwise the turn starts (`_start_llm_request`; the user-message save
goes through the write queue and is not an assistant save). -/
def send_message (rt : String → String) (st : CoordState) : CoordState :=
  if st.waiting then _stop_generation rt st
  else _start_llm_request st

/-! ## Section 6: derived definitions used by the theorems. -/

/-- Projection of the message table to (role, content) pairs in row order. -/
def msgLog (db : DBState) : List (String × String) :=
  db.messages.map (fun m => (m.role, m.content))

/-- Well-formedness of the store: no chat row carries the falsy id 0, and
the AUTOINCREMENT counter starts at 1 or later — both hold for every store
SQLite actually produces and for `DBState.empty`. -/
def DBWF (db : DBState) : Prop :=
  (∀ c ∈ db.chats, c.id ≠ 0) ∧ 1 ≤ db.nextChatId

/-- Concatenation of a list of strings (the accumulation
`full_response += chunk` performed by `LLMStreamWorker.run`). -/
def concatAll : List String → String
  | [] => ""
  | s :: rest => s ++ concatAll rest

/-- Store used by the C8 counterexample: the conversation "c" exists. -/
def dbC : DBState := ⟨[⟨1, "c", 0, 0⟩], [], 2, 1⟩

/-- The interleaving refuting the staleness property (claim C1), with
`remove_tags_from_response` instantiated to the identity.  Events are
processed on the UI thread strictly in enqueue order; a signal's queue
position is its emission time, while `isRunning()` is evaluated at
processing time.  Queue order:
1. the user sends a message — generation 1 starts in conversation "A";
2. while the UI thread is busy, the user clicks conversation "A" — the one
   already selected — in the chat list, then submits the next message they
   had typed; only afterwards does worker 1 emit its chunk "c1" and its
   finished signal and return from `run` (so those two signals sit in the
   queue behind both clicks, and `isRunning()` is false by the time any of
   this is processed);
3. the same-chat click is handled: `select_chat("A")` skips the whole
   cancel block (line 481 requires a DIFFERENT chat), reassigns
   `current_chat` and clears `is_waiting_for_response` (line 525) — no
   `cancel()` call, no formatter, nothing raises;
4. the send click is handled: the waiting flag is clear, so generation 2
   starts (`_start_llm_request` finds worker 1 not running);
5. worker 1's queued chunk "c1" — carrying generation id 1 — is handled
   AFTER generation 2 has started;
6. worker 1's queued finished signal is handled: the save thread (line
   880) persists the buffer — already polluted with "c1" — before the
   formatter `TypeError` is caught at line 893;
7. worker 2's chunk "d" is handled;
8. worker 2's `run` returns;
9. worker 2's finished signal is handled. -/
def c1Trace : CoordState :=
  let s0 := CoordState.initial "A"
  let s1 := send_message id s0
  let s2 := workerThreadEnded s1
  let s3 := select_chat id s2 "A"
  let s4 := send_message id s3
  let s5 := on_chunk_received s4 1 "c1"
  let s6 := on_response_received id s5
  let s7 := on_chunk_received s6 2 "d"
  let s8 := workerThreadEnded s7
  on_response_received id s8

/-! ## Theorems -/

/-- Helper: the chunk-consumption loop of `LLMStreamWorker.run` emits
exactly the non-empty yielded chunks and accumulates their concatenation
onto the accumulator. -/
theorem workerFold_eq (cs : List String) :
    ∀ acc, workerFold cs acc =
      (cs.filter (fun c => c != ""),
       acc ++ concatAll (cs.filter (fun c => c != ""))) := by
  induction cs with
  | nil =>
      intro acc
      simp [workerFold, concatAll]
  | cons c rest ih =>
      intro acc
      by_cases hc : c = ""
      · subst hc
        simp [workerFold, ih]
      · simp [workerFold, hc, ih, concatAll, String.append_assoc]

/-- Helper: the error chunk built from an exception message is never the
empty string (so the worker loop's `if chunk:` does not discard it). -/
theorem errChunk_ne_empty (msg : String) : ("❌ Fehler: " ++ msg) ≠ "" := by
  intro h
  have h2 := congrArg String.length h
  rw [String.length_append] at h2
  simp at h2
  exact absurd h2.1 (by decide)

/-- Helper: `concatAll` distributes over list append. -/
theorem concatAll_append (l1 l2 : List String) :
    concatAll (l1 ++ l2) = concatAll l1 ++ concatAll l2 := by
  induction l1 with
  | nil => simp [concatAll]
  | cons s rest ih => simp [concatAll, ih, String.append_assoc]

/-- Helper: no branch of the `chat_stream` attempt loop ever marks the
response object as released. -/
theorem chatStreamGo_released (sched : List AttemptOutcome) :
    ∀ attempt, (chatStreamGo attempt sched).released = false := by
  induction sched with
  | nil =>
      intro a
      simp [chatStreamGo]
  | cons o rest ih =>
      intro a
      cases o with
      | ok lines => simp [chatStreamGo]
      | httpError code =>
          simp only [chatStreamGo]
          split
          · exact ih (a + 1)
          · rfl
      | timeoutAfter lines =>
          simp only [chatStreamGo]
          split
          · exact ih (a + 1)
          · rfl
      | exnAfter lines msg => simp [chatStreamGo]

/-- C7 (confirmed): `_get_timeout` matches model identities by substring
against the configured table while skipping the `"default"` entry —
`"qwen2.5:7b"` resolves to its family timeout 90 — and falls back to the
configured default for unknown identities —
`"totally-unknown-model:99b"` resolves to 120. -/
theorem C7_resolve_timeout_values :
    _get_timeout "qwen2.5:7b" = some 90 ∧
    _get_timeout "totally-unknown-model:99b" = some 120 := by
  constructor <;> decide

/-- C3 (code_bug): the streaming call has no cancel predicate — the source
signature of `chat_stream` is `(self, model, messages, temperature,
callback)` and its chunk loop polls nothing, which is why the embedding
`chat_stream` takes only the network schedule.  Consequently, on a stream
of three chunks, cancellation requested after the first chunk cannot stop
delivery: all three chunks are yielded by the generator and all three are
emitted as `chunk_received` events by `LLMStreamWorker.run` (whose `cancel`
method does not exist: `self.llm_worker.cancel()` in main_window.py raises
`AttributeError`). -/
theorem C3_no_cancel_all_chunks_delivered :
    (chat_stream [AttemptOutcome.ok
      [RawLine.chunk "c1", RawLine.chunk "c2", RawLine.chunk "c3"]]).yielded
      = ["c1", "c2", "c3"] ∧
    (LLMStreamWorker_run [AttemptOutcome.ok
      [RawLine.chunk "c1", RawLine.chunk "c2", RawLine.chunk "c3"]]).chunkEvents
      = ["c1", "c2", "c3"] := by
  constructor <;> decide

/-- C4 counterexample: on the normal end-of-stream exit path of
`chat_stream` the response object is NOT released — there is no
guaranteed-cleanup block in the source — refuting the claim that every
exit path releases it. -/
theorem C4_not_released_on_normal_exit :
    (chat_stream [AttemptOutcome.ok [RawLine.chunk "c1"]]).released = false := by
  decide

/-- C4 (corrected): on EVERY exit path of `chat_stream` — normal end of
stream, exhausted retries, timeout, or exception — the response object is
never explicitly released; its disposal is left to the Python runtime. -/
theorem C4_never_released (schedule : List AttemptOutcome) :
    (chat_stream schedule).released = false :=
  chatStreamGo_released schedule 1

/-- C10 (confirmed): when the streaming call fails — a timeout on the final
retry attempt, or any non-timeout exception during streaming — it yields
the human-readable error description (`"⏱️ Stream Timeout"` resp.
`"❌ Fehler: ..."`) as an ordinary text chunk: the error text is emitted as
a `chunk_received` event and ends up as the suffix of the accumulated
`full_response` that `LLMStreamWorker.run` passes to its `finished` signal
(which the coordinator displays and persists). -/
theorem C10_error_text_becomes_chunk (l1 l2 l3 lines : List RawLine)
    (msg : String) (rest : List AttemptOutcome) :
    (chat_stream [AttemptOutcome.timeoutAfter l1,
        AttemptOutcome.timeoutAfter l2,
        AttemptOutcome.timeoutAfter l3]).yielded
      = extractTexts l1 ++ extractTexts l2 ++ extractTexts l3
          ++ ["⏱️ Stream Timeout"] ∧
    "⏱️ Stream Timeout" ∈ (LLMStreamWorker_run
        [AttemptOutcome.timeoutAfter l1, AttemptOutcome.timeoutAfter l2,
         AttemptOutcome.timeoutAfter l3]).chunkEvents ∧
    (∃ pre, (LLMStreamWorker_run
        [AttemptOutcome.timeoutAfter l1, AttemptOutcome.timeoutAfter l2,
         AttemptOutcome.timeoutAfter l3]).finishedText
      = pre ++ "⏱️ Stream Timeout") ∧
    (chat_stream (AttemptOutcome.exnAfter lines msg :: rest)).yielded
      = extractTexts lines ++ ["❌ Fehler: " ++ msg] ∧
    ("❌ Fehler: " ++ msg) ∈ (LLMStreamWorker_run
        (AttemptOutcome.exnAfter lines msg :: rest)).chunkEvents ∧
    (∃ pre, (LLMStreamWorker_run
        (AttemptOutcome.exnAfter lines msg :: rest)).finishedText
      = pre ++ ("❌ Fehler: " ++ msg)) := by
  have hyT : (chat_stream [AttemptOutcome.timeoutAfter l1,
      AttemptOutcome.timeoutAfter l2,
      AttemptOutcome.timeoutAfter l3]).yielded
      = extractTexts l1 ++ extractTexts l2 ++ extractTexts l3
          ++ ["⏱️ Stream Timeout"] := by
    simp [chat_stream, chatStreamGo, OLLAMA_RETRY_ATTEMPTS]
  have hyE : (chat_stream (AttemptOutcome.exnAfter lines msg :: rest)).yielded
      = extractTexts lines ++ ["❌ Fehler: " ++ msg] := by
    simp [chat_stream, chatStreamGo]
  refine ⟨hyT, ?_, ?_, hyE, ?_, ?_⟩
  · simp [LLMStreamWorker_run, workerFold_eq, hyT]
  · refine ⟨concatAll (((extractTexts l1 ++ extractTexts l2
      ++ extractTexts l3)).filter (fun c => c != "")), ?_⟩
    simp [LLMStreamWorker_run, workerFold_eq, hyT, List.filter_append,
      concatAll_append, concatAll, String.append_assoc]
  · simp [LLMStreamWorker_run, workerFold_eq, hyE]
    right
    exact errChunk_ne_empty msg
  · refine ⟨concatAll ((extractTexts lines).filter (fun c => c != "")), ?_⟩
    simp [LLMStreamWorker_run, workerFold_eq, hyE, List.filter_append,
      concatAll_append, concatAll]

/-- Helper: `_create_chat_unlocked` never touches the message table or the
message id counter. -/
theorem create_unlocked_messages (db : DBState) (name : String) (now : Nat)
    (busy : Bool) :
    (_create_chat_unlocked db name now busy).1.messages = db.messages ∧
    (_create_chat_unlocked db name now busy).1.nextMsgId = db.nextMsgId := by
  by_cases hb : busy
  · simp [_create_chat_unlocked, hb]
  · by_cases ha : db.chats.any (fun c => c.name == name)
    · simp [_create_chat_unlocked, chatInsert, hb, ha]
    · simp [_create_chat_unlocked, chatInsert, hb, ha]

/-- Helper: the writer-side insert path performs at most one INSERT attempt
for the message row and never sleeps. -/
theorem writeSync_basic (db : DBState) (name role content : String)
    (now : Nat) (cb ib : Bool) :
    (_write_message_sync db name role content now cb ib).insertAttempts ≤ 1 ∧
    (_write_message_sync db name role content now cb ib).sleepsMs = [] := by
  by_cases h1 : pyTruthy (get_chat_id db name) = true
  · cases hg : get_chat_id db name with
    | none => rw [hg] at h1; simp [pyTruthy] at h1
    | some i =>
        rw [hg] at h1
        by_cases hib : ib = true <;>
          simp [_write_message_sync, hg, h1, hib]
  · have hb1 : pyTruthy (get_chat_id db name) = false := by
      revert h1; cases pyTruthy (get_chat_id db name) <;> simp
    cases hq : (_create_chat_unlocked db name now cb).2 with
    | none =>
        have hpt : pyTruthy (none : Option Nat) = false := rfl
        simp [_write_message_sync, hb1, hq, hpt]
    | some i =>
        by_cases hz : i = 0
        · have hpt : pyTruthy (some i) = false := by simp [pyTruthy, hz]
          simp [_write_message_sync, hb1, hq, hpt]
        · have hpt : pyTruthy (some i) = true := by simp [pyTruthy, hz]
          by_cases hib : ib = true <;>
            simp [_write_message_sync, hb1, hq, hpt, hib]

/-- Helper: when `_write_message_sync` returns `True` it has appended
exactly the new (role, content) row, logging nothing. -/
theorem writeSync_success (db : DBState) (name role content : String)
    (now : Nat) (cb ib : Bool)
    (h : (_write_message_sync db name role content now cb ib).returned = true) :
    (_write_message_sync db name role content now cb ib).logged = 0 ∧
    msgLog (_write_message_sync db name role content now cb ib).db
      = msgLog db ++ [(role, content)] := by
  have hmem := create_unlocked_messages db name now cb
  by_cases h1 : pyTruthy (get_chat_id db name) = true
  · cases hg : get_chat_id db name with
    | none => rw [hg] at h1; simp [pyTruthy] at h1
    | some i =>
        rw [hg] at h1
        by_cases hib : ib = true
        · simp [_write_message_sync, hg, h1, hib] at h
        · simp [_write_message_sync, hg, h1, hib, msgLog, msgInsert]
  · have hb1 : pyTruthy (get_chat_id db name) = false := by
      revert h1; cases pyTruthy (get_chat_id db name) <;> simp
    cases hq : (_create_chat_unlocked db name now cb).2 with
    | none =>
        have hpt : pyTruthy (none : Option Nat) = false := rfl
        simp [_write_message_sync, hb1, hq, hpt] at h
    | some i =>
        by_cases hz : i = 0
        · have hpt : pyTruthy (some i) = false := by simp [pyTruthy, hz]
          simp [_write_message_sync, hb1, hq, hpt] at h
        · have hpt : pyTruthy (some i) = true := by simp [pyTruthy, hz]
          by_cases hib : ib = true
          · simp [_write_message_sync, hb1, hq, hpt, hib] at h
          · simp [_write_message_sync, hb1, hq, hpt, hib,
              msgLog, msgInsert, hmem.1]

/-- Helper: when `_write_message_sync` returns `False` the failure has been
logged exactly once and the message table is unchanged — the write is
dropped, with no retry and no delay. -/
theorem writeSync_failure (db : DBState) (name role content : String)
    (now : Nat) (cb ib : Bool)
    (h : (_write_message_sync db name role content now cb ib).returned = false) :
    (_write_message_sync db name role content now cb ib).logged = 1 ∧
    (_write_message_sync db name role content now cb ib).db.messages
      = db.messages := by
  have hmem := create_unlocked_messages db name now cb
  by_cases h1 : pyTruthy (get_chat_id db name) = true
  · cases hg : get_chat_id db name with
    | none => rw [hg] at h1; simp [pyTruthy] at h1
    | some i =>
        rw [hg] at h1
        by_cases hib : ib = true
        · simp [_write_message_sync, hg, h1, hib]
        · simp [_write_message_sync, hg, h1, hib] at h
  · have hb1 : pyTruthy (get_chat_id db name) = false := by
      revert h1; cases pyTruthy (get_chat_id db name) <;> simp
    cases hq : (_create_chat_unlocked db name now cb).2 with
    | none =>
        have hpt : pyTruthy (none : Option Nat) = false := rfl
        simp [_write_message_sync, hb1, hq, hpt, hmem.1]
    | some i =>
        by_cases hz : i = 0
        · have hpt : pyTruthy (some i) = false := by simp [pyTruthy, hz]
          simp [_write_message_sync, hb1, hq, hpt, hmem.1]
        · have hpt : pyTruthy (some i) = true := by simp [pyTruthy, hz]
          by_cases hib : ib = true
          · simp [_write_message_sync, hb1, hq, hpt, hib, hmem.1]
          · simp [_write_message_sync, hb1, hq, hpt, hib] at h

/-- Helper: the only delay in `save_message` is the single 0.1 s sleep
before the one re-read of the chat id, and a `False` return enqueues
nothing and logs exactly one error. -/
theorem saveMessage_retry_bound (db : DBState) (name role content : String)
    (now : Nat) (cb : Bool) :
    ((save_message db name role content now cb).sleepsMs = [] ∨
      (save_message db name role content now cb).sleepsMs = [100]) ∧
    ((save_message db name role content now cb).returned = false →
      (save_message db name role content now cb).enqueued = [] ∧
      (save_message db name role content now cb).loggedErrors = 1) := by
  simp only [save_message]
  split
  · simp
  · split
    · simp
    · split <;> simp

/-- C8 counterexample: on the store `dbC` (conversation "c" exists) a
transient busy condition during the message INSERT makes
`_write_message_sync` surface the failure IMMEDIATELY: a single INSERT
attempt, no retry, no delay, the error logged and the write dropped — the
claim's "retries a small fixed number of times with a short fixed delay
... only after those retries are exhausted is the failure surfaced" does
not hold on the writer's insert path. -/
theorem C8_busy_insert_dropped_without_retry :
    (_write_message_sync dbC "c" "user" "hi" 5 false true).returned = false ∧
    (_write_message_sync dbC "c" "user" "hi" 5 false true).insertAttempts = 1 ∧
    (_write_message_sync dbC "c" "user" "hi" 5 false true).sleepsMs = [] ∧
    (_write_message_sync dbC "c" "user" "hi" 5 false true).logged = 1 ∧
    (_write_message_sync dbC "c" "user" "hi" 5 false true).db.messages = [] := by
  refine ⟨?_, ?_, ?_, ?_, ?_⟩ <;> decide

/-- C8 (corrected): appending a message never blocks indefinitely and never
raises, and either inserts the row or logs-and-drops — but WITHOUT any
busy retry on the insert path: `_write_message_sync` makes at most one
INSERT attempt and performs no delay; on success nothing is logged and
exactly the new (role, content) row is appended; on failure the error is
logged once and the message table is unchanged.  The only retry-with-delay
lives in the enqueue path `save_message`, which re-reads the chat id once
after a single 0.1 s sleep, and on failure enqueues nothing and logs once. -/
theorem C8_single_attempt_log_and_drop (db : DBState)
    (name role content : String) (now : Nat) (cb ib : Bool) :
    (_write_message_sync db name role content now cb ib).insertAttempts ≤ 1 ∧
    (_write_message_sync db name role content now cb ib).sleepsMs = [] ∧
    ((_write_message_sync db name role content now cb ib).returned = true →
      (_write_message_sync db name role content now cb ib).logged = 0 ∧
      msgLog (_write_message_sync db name role content now cb ib).db
        = msgLog db ++ [(role, content)]) ∧
    ((_write_message_sync db name role content now cb ib).returned = false →
      (_write_message_sync db name role content now cb ib).logged = 1 ∧
      (_write_message_sync db name role content now cb ib).db.messages
        = db.messages) ∧
    ((save_message db name role content now cb).sleepsMs = [] ∨
      (save_message db name role content now cb).sleepsMs = [100]) ∧
    ((save_message db name role content now cb).returned = false →
      (save_message db name role content now cb).enqueued = [] ∧
      (save_message db name role content now cb).loggedErrors = 1) :=
  ⟨(writeSync_basic db name role content now cb ib).1,
   (writeSync_basic db name role content now cb ib).2,
   fun h => writeSync_success db name role content now cb ib h,
   fun h => writeSync_failure db name role content now cb ib h,
   (saveMessage_retry_bound db name role content now cb).1,
   (saveMessage_retry_bound db name role content now cb).2⟩

/-- Witness for C8_single_attempt_log_and_drop at the concrete busy-insert
input of the counterexample store. -/
theorem C8_single_attempt_log_and_drop_witness :
    (_write_message_sync dbC "c" "user" "hi" 5 false true).insertAttempts ≤ 1 ∧
    (_write_message_sync dbC "c" "user" "hi" 5 false true).sleepsMs = [] ∧
    ((_write_message_sync dbC "c" "user" "hi" 5 false true).returned = true →
      (_write_message_sync dbC "c" "user" "hi" 5 false true).logged = 0 ∧
      msgLog (_write_message_sync dbC "c" "user" "hi" 5 false true).db
        = msgLog dbC ++ [("user", "hi")]) ∧
    ((_write_message_sync dbC "c" "user" "hi" 5 false true).returned = false →
      (_write_message_sync dbC "c" "user" "hi" 5 false true).logged = 1 ∧
      (_write_message_sync dbC "c" "user" "hi" 5 false true).db.messages
        = dbC.messages) ∧
    ((save_message dbC "c" "user" "hi" 5 false).sleepsMs = [] ∨
      (save_message dbC "c" "user" "hi" 5 false).sleepsMs = [100]) ∧
    ((save_message dbC "c" "user" "hi" 5 false).returned = false →
      (save_message dbC "c" "user" "hi" 5 false).enqueued = [] ∧
      (save_message dbC "c" "user" "hi" 5 false).loggedErrors = 1) :=
  C8_single_attempt_log_and_drop dbC "c" "user" "hi" 5 false true

/-- C2 counterexample: starting from the empty store, the FIRST public
`create_chat "chat"` returns id 1, but the SECOND public call with the same
name hits the UNIQUE constraint and returns `None` — not the existing id —
so the public interface is not idempotent as claimed. -/
theorem C2_second_create_returns_none :
    (create_chat DBState.empty "chat" 0 false).2 = some 1 ∧
    (create_chat (create_chat DBState.empty "chat" 0 false).1
        "chat" 1 false).2 = none := by
  constructor <;> decide

/-- C2 (corrected): for a name not yet present, the first public
`create_chat` returns the fresh id; a second public call returns `None`
(the `sqlite3.IntegrityError` is swallowed, no exception escapes); exactly
one row with that name exists afterwards; and the INTERNAL
`_create_chat_unlocked` — the creator used by the write path — IS
idempotent: called again it returns the existing row's id and leaves the
store unchanged. -/
theorem C2_create_chat_amended (db : DBState) (name : String) (t1 t2 : Nat)
    (h : get_chat_id db name = none) :
    (create_chat db name t1 false).2 = some db.nextChatId ∧
    (create_chat (create_chat db name t1 false).1 name t2 false).2 = none ∧
    ((create_chat db name t1 false).1.chats.filter
        (fun c => c.name == name)).length = 1 ∧
    _create_chat_unlocked (create_chat db name t1 false).1 name t2 false
      = ((create_chat db name t1 false).1, some db.nextChatId) := by
  have hfind : db.chats.find? (fun c => c.name == name) = none := by
    simpa [get_chat_id] using h
  have hall : ∀ c ∈ db.chats, ¬((fun c : ChatRow => c.name == name) c = true) :=
    List.find?_eq_none.mp hfind
  have hany : db.chats.any (fun c => c.name == name) = false := by
    rw [Bool.eq_false_iff]
    intro hcontr
    obtain ⟨c, hc, hp⟩ := List.any_eq_true.mp hcontr
    exact hall c hc hp
  have hfil : db.chats.filter (fun c => c.name == name) = [] :=
    List.filter_eq_nil_iff.mpr hall
  have hr1 : create_chat db name t1 false
      = ({ db with
            chats := db.chats ++ [⟨db.nextChatId, name, t1, t1⟩],
            nextChatId := db.nextChatId + 1 }, some db.nextChatId) := by
    simp [create_chat, chatInsert, hany]
  refine ⟨?_, ?_, ?_, ?_⟩
  · rw [hr1]
  · rw [hr1]
    simp [create_chat, chatInsert, List.any_append]
  · rw [hr1]
    simp [List.filter_append, hfil]
  · rw [hr1]
    simp [_create_chat_unlocked, chatInsert, List.any_append,
      get_chat_id, List.find?_append, hfind]

/-- Witness for C2_create_chat_amended at the empty store. -/
theorem C2_create_chat_amended_witness :
    (create_chat DBState.empty "chat" 0 false).2
      = some DBState.empty.nextChatId ∧
    (create_chat (create_chat DBState.empty "chat" 0 false).1
        "chat" 1 false).2 = none ∧
    ((create_chat DBState.empty "chat" 0 false).1.chats.filter
        (fun c => c.name == "chat")).length = 1 ∧
    _create_chat_unlocked (create_chat DBState.empty "chat" 0 false).1
        "chat" 1 false
      = ((create_chat DBState.empty "chat" 0 false).1,
         some DBState.empty.nextChatId) :=
  C2_create_chat_amended DBState.empty "chat" 0 1 (by decide)

/-- C1 (code_bug): evaluation of the coordinator on the interleaving of
`c1Trace`, on which no slot raises (`crashed = false` throughout: the
same-chat `select_chat` skips the cancel block, and the formatter
`TypeError` inside `on_response_received` is caught after the save thread
has started).  The chunk handled at step 5 carries generation id 1 (it was
emitted by the superseded generation-1 worker) and is delivered after
generation 2 has started, yet `on_chunk_received` ACCEPTS it — the
staleness check compares the stored worker's `_gen_id` (2) with
`self._generation_id` (2), never the emitter's id — so "c1" ends up in
generation 2's final accumulated text "c1d" and in both persisted
assistant messages, contradicting the claim and the source's own comment
"Stale-Check: Ignoriere Chunks von alten Workers". -/
theorem C1_stale_chunk_in_final_text :
    c1Trace.generationId = 2 ∧
    c1Trace.currentResponse = "c1d" ∧
    c1Trace.saved = [("A", "c1"), ("A", "c1d")] ∧
    c1Trace.crashed = false := by
  refine ⟨?_, ?_, ?_, ?_⟩ <;> decide

/-- Helper: once the worker thread has exited, `workerStep` does nothing —
no `task_done` can ever be called again. -/
theorem workerSteps_dead (s : SerializerState) (h : s.workerAlive = false) :
    ∀ n, workerSteps s n = s := by
  have hs : workerStep s = s := by simp [workerStep, h]
  intro n
  induction n with
  | zero => rfl
  | succ n ih =>
      show workerSteps (workerStep s) n = s
      rw [hs]
      exact ih

/-- C6 (code_bug): the first `close()` drains and returns — one worker
iteration consumes the sentinel and the unfinished-task count reaches 0, so
`join()` returns — and afterwards the worker thread is dead.  A SECOND
`close()` puts a fresh sentinel, raising the unfinished count to 1, but no
worker is alive to call `task_done`: after ANY number of steps the count is
still 1, so the second call's `self._write_queue.join()` never returns —
`close()` is not idempotent; it hangs. -/
theorem C6_second_close_never_returns :
    (workerSteps (putSentinel initialSerializer) 1).unfinished = 0 ∧
    afterFirstClose.workerAlive = false ∧
    (putSentinel afterFirstClose).unfinished = 1 ∧
    ∀ n, (workerSteps (putSentinel afterFirstClose) n).unfinished = 1 := by
  refine ⟨by decide, by decide, by decide, ?_⟩
  intro n
  rw [workerSteps_dead (putSentinel afterFirstClose) (by decide) n]
  decide

/-- Helper: a found chat id belongs to some stored chat row. -/
theorem get_chat_id_mem (db : DBState) (name : String) (i : Nat)
    (h : get_chat_id db name = some i) : ∃ c ∈ db.chats, c.id = i := by
  unfold get_chat_id at h
  cases hf : db.chats.find? (fun c => c.name == name) with
  | none => rw [hf] at h; simp at h
  | some c =>
      rw [hf] at h
      simp at h
      exact ⟨c, List.mem_of_find?_eq_some hf, h⟩

/-- Helper: inserting a message row and refreshing `updated_at` preserves
store well-formedness. -/
theorem msgInsert_WF (db : DBState) (cid : Nat) (role content : String)
    (now : Nat) (h : DBWF db) : DBWF (msgInsert db cid role content now) := by
  refine ⟨?_, h.2⟩
  intro c hc
  simp only [msgInsert, List.mem_map] at hc
  obtain ⟨c0, hc0, rfl⟩ := hc
  by_cases hid : (c0.id == cid) = true <;>
    simp only [hid, if_true, if_false, Bool.false_eq_true, ite_false, ite_true] <;>
    exact h.1 c0 hc0

/-- Helper: on a well-formed store a fault-free `_write_message_sync`
always succeeds and preserves well-formedness. -/
theorem writeSync_WF (db : DBState) (name role content : String) (now : Nat)
    (h : DBWF db) :
    (_write_message_sync db name role content now false false).returned
      = true ∧
    DBWF (_write_message_sync db name role content now false false).db := by
  by_cases h1 : pyTruthy (get_chat_id db name) = true
  · cases hg : get_chat_id db name with
    | none => rw [hg] at h1; simp [pyTruthy] at h1
    | some i =>
        rw [hg] at h1
        constructor
        · simp [_write_message_sync, hg, h1]
        · simp only [_write_message_sync, hg, h1, if_true]
          exact msgInsert_WF db i role content now h
  · have hg : get_chat_id db name = none := by
      cases hg : get_chat_id db name with
      | none => rfl
      | some i =>
          obtain ⟨c, hc, hci⟩ := get_chat_id_mem db name i hg
          have : i ≠ 0 := hci ▸ h.1 c hc
          rw [hg] at h1
          simp [pyTruthy, this] at h1
    have hb1 : pyTruthy (get_chat_id db name) = false := by
      rw [hg]; rfl
    have hfind : db.chats.find? (fun c => c.name == name) = none := by
      simpa [get_chat_id] using hg
    have hall : ∀ c ∈ db.chats,
        ¬((fun c : ChatRow => c.name == name) c = true) :=
      List.find?_eq_none.mp hfind
    have hany : db.chats.any (fun c => c.name == name) = false := by
      rw [Bool.eq_false_iff]
      intro hcontr
      obtain ⟨c, hc, hp⟩ := List.any_eq_true.mp hcontr
      exact hall c hc hp
    have hcu : _create_chat_unlocked db name now false
        = ({ db with
              chats := db.chats ++ [⟨db.nextChatId, name, now, now⟩],
              nextChatId := db.nextChatId + 1 }, some db.nextChatId) := by
      simp [_create_chat_unlocked, chatInsert, hany]
    have hnz : db.nextChatId ≠ 0 := by
      have h2 := h.2
      omega
    have hpt : pyTruthy (some db.nextChatId) = true := by
      simp [pyTruthy, hnz]
    have hwf2 : DBWF { db with
        chats := db.chats ++ [⟨db.nextChatId, name, now, now⟩],
        nextChatId := db.nextChatId + 1 } := by
      refine ⟨?_, by show 1 ≤ db.nextChatId + 1; omega⟩
      intro c hc
      rcases List.mem_append.mp hc with hc1 | hc2
      · exact h.1 c hc1
      · simp at hc2
        rw [hc2]
        exact hnz
    constructor
    · simp [_write_message_sync, hb1, hcu, hpt]
    · simp only [_write_message_sync, hb1, hcu, hpt, Bool.false_eq_true,
        if_false, if_true]
      exact msgInsert_WF _ db.nextChatId role content now hwf2

/-- Helper: the writer loop run on `jobs ++ [sentinel]` processes exactly
the enqueued jobs, in FIFO submission order, appending their rows to the
message table in that order. -/
theorem writerLoop_spec (jobs : List WriteJob) :
    ∀ db, DBWF db → ∀ now,
      (_writer_loop db (jobs.map some ++ [none]) now).2 = jobs ∧
      msgLog (_writer_loop db (jobs.map some ++ [none]) now).1
        = msgLog db ++ jobs.map (fun j => (j.role, j.content)) ∧
      DBWF (_writer_loop db (jobs.map some ++ [none]) now).1 := by
  induction jobs with
  | nil =>
      intro db h now
      exact ⟨rfl, by simp [_writer_loop], h⟩
  | cons j rest ih =>
      intro db h now
      have hw := writeSync_WF db j.chat_name j.role j.content now h
      have hs := writeSync_success db j.chat_name j.role j.content now
        false false hw.1
      have ihr := ih
        (_write_message_sync db j.chat_name j.role j.content now false false).db
        hw.2 now
      have hq : (j :: rest).map some ++ [none]
          = some j :: (rest.map some ++ [none]) := by simp
      rw [hq]
      simp only [_writer_loop]
      refine ⟨?_, ?_, ihr.2.2⟩
      · simp [ihr.1]
      · rw [ihr.2.1, hs.2]
        simp

/-- Helper: with `n` real jobs queued and the sentinel appended by
`close()`, the unfinished-task count stays positive through the first `n`
worker iterations (so `join()` cannot return before every job is applied)
and reaches 0 exactly after the sentinel is consumed. -/
theorem sentinel_join_counting (jobs : List WriteJob) :
    (∀ k, k ≤ jobs.length →
      0 < (workerSteps (putSentinel
        ⟨jobs.map some, jobs.length, true, false, true⟩) k).unfinished) ∧
    (workerSteps (putSentinel
        ⟨jobs.map some, jobs.length, true, false, true⟩)
      (jobs.length + 1)).unfinished = 0 := by
  induction jobs with
  | nil =>
      constructor
      · intro k hk
        have : k = 0 := Nat.le_zero.mp hk
        subst this
        decide
      · decide
  | cons j rest ih =>
      have hstep : workerStep (putSentinel
            ⟨(j :: rest).map some, (j :: rest).length, true, false, true⟩)
          = putSentinel ⟨rest.map some, rest.length, true, false, true⟩ := by
        simp [workerStep, putSentinel]
      constructor
      · intro k hk
        cases k with
        | zero => simp [workerSteps, putSentinel]
        | succ k' =>
            show 0 < (workerSteps (workerStep _) k').unfinished
            rw [hstep]
            exact ih.1 k' (by simpa using Nat.le_of_succ_le_succ hk)
      · show (workerSteps (workerStep _) ((j :: rest).length)).unfinished = 0
        rw [hstep]
        simpa using ih.2

/-- C5 (confirmed): for every sequence of write jobs enqueued before
`close()` — e.g. 50 — the sentinel is put after the real jobs, the worker
applies every previously enqueued job to the store in strict FIFO
submission order, and `close()`'s `join()` cannot return before all of
them are applied: the unfinished-task count stays positive through the
first `jobs.length` worker iterations and reaches 0 only once the sentinel
(after all jobs) is consumed. -/
theorem C5_close_drains (db : DBState) (jobs : List WriteJob) (now : Nat)
    (h : DBWF db) :
    (close_drain db jobs now).2 = jobs ∧
    msgLog (close_drain db jobs now).1
      = msgLog db ++ jobs.map (fun j => (j.role, j.content)) ∧
    (∀ k, k ≤ jobs.length →
      0 < (workerSteps (putSentinel
        ⟨jobs.map some, jobs.length, true, false, true⟩) k).unfinished) ∧
    (workerSteps (putSentinel
        ⟨jobs.map some, jobs.length, true, false, true⟩)
      (jobs.length + 1)).unfinished = 0 :=
  ⟨(writerLoop_spec jobs db h now).1,
   (writerLoop_spec jobs db h now).2.1,
   (sentinel_join_counting jobs).1,
   (sentinel_join_counting jobs).2⟩

/-- Witness for C5_close_drains: two concrete jobs on the empty store. -/
theorem C5_close_drains_witness :
    (close_drain DBState.empty
        [⟨"c", "user", "hi"⟩, ⟨"c", "assistant", "ok"⟩] 7).2
      = [⟨"c", "user", "hi"⟩, ⟨"c", "assistant", "ok"⟩] ∧
    msgLog (close_drain DBState.empty
        [⟨"c", "user", "hi"⟩, ⟨"c", "assistant", "ok"⟩] 7).1
      = msgLog DBState.empty ++ [("user", "hi"), ("assistant", "ok")] ∧
    0 < (workerSteps (putSentinel
        ⟨[⟨"c", "user", "hi"⟩, ⟨"c", "assistant", "ok"⟩].map some, 2,
          true, false, true⟩) 2).unfinished ∧
    (workerSteps (putSentinel
        ⟨[⟨"c", "user", "hi"⟩, ⟨"c", "assistant", "ok"⟩].map some, 2,
          true, false, true⟩) 3).unfinished = 0 := by
  have t := C5_close_drains DBState.empty
    [⟨"c", "user", "hi"⟩, ⟨"c", "assistant", "ok"⟩] 7
    ⟨by intro c hc; simp [DBState.empty] at hc, by decide⟩
  exact ⟨t.1, t.2.1, t.2.2.1 2 (by decide), t.2.2.2⟩

/-- C9 (code_bug): evaluation at the failing input — a turn is streaming
in conversation "A" (one chunk already accumulated) and the user selects
conversation "B" while the worker is still running.  `select_chat`'s
mid-turn branch calls `self.llm_worker.cancel()` (main_window.py line
484), a method `LLMStreamWorker` does not define: the slot dies on the
uncaught `AttributeError` (fatal under PyQt defaults) BEFORE
`self.current_chat` is reassigned — the switch never takes effect, the
turn never completes, and nothing is persisted.  Even under
exception-swallowing semantics, the next turn that does start (once the
worker thread has ended) still has response target "A", not the newly
selected "B" — contradicting the claim's "only the next turn targets the
new conversation".  (The freeze mechanism itself is real: every persist
path reads `_response_target_chat`; it is the mid-turn switch the claim
centres on that crashes instead of completing.) -/
theorem C9_switch_mid_stream_fails :
    (select_chat id (on_chunk_received
        (_start_llm_request (CoordState.initial "A")) 1 "c1") "B").crashed
      = true ∧
    (select_chat id (on_chunk_received
        (_start_llm_request (CoordState.initial "A")) 1 "c1") "B").currentChat
      = "A" ∧
    (select_chat id (on_chunk_received
        (_start_llm_request (CoordState.initial "A")) 1 "c1") "B").saved
      = [] ∧
    (_start_llm_request (workerThreadEnded (select_chat id (on_chunk_received
        (_start_llm_request (CoordState.initial "A")) 1 "c1")
        "B"))).responseTarget = "A" := by
  refine ⟨?_, ?_, ?_, ?_⟩ <;> decide

end Astra
